import Mathlib

set_option maxRecDepth 8192

/-
  Verification of the citation-resolution and style-profile logic of the
  VibeResearch writing assistant.

  The embedding translates:
    - src/services/geminiService.ts : analyzeStyle, findCitationsForSelection,
      extractKeywords, generateStyleSample, rewriteSection, continueSection,
      ghostWrite;
    - src/App.tsx : handleFindCitations, handleCalibrateFromEditor;
    - src/services/mockData.ts : INITIAL_RESEARCH_DB;
    - src/types.ts : ResearchSnippet and the StyleProfile field set.

  External AI calls are opaque oracles; each one is passed in as an explicit
  parameter of type `Except String (Option _)`:
    - `Except.error e`  models the underlying request throwing / rejecting
      (network failure, or JSON.parse throwing on a malformed body);
    - `Except.ok none`  models a response whose `text` field is absent or
      empty (falsy in JS);
    - `Except.ok (some v)` models a successfully parsed response body.

  JS strings are modelled by `String`, JS numbers occurring in this logic are
  integers and are modelled by `Int`, and a JS object field that may be
  `undefined`/`null` is modelled by `Option _`.
-/

/-- JS `String.prototype.toLowerCase` on a single character (ASCII range;
the characters exercised by this development are ASCII). -/
def jsLowerChar (c : Char) : Char :=
  if 65 ≤ c.toNat ∧ c.toNat ≤ 90 then Char.ofNat (c.toNat + 32) else c

/-- JS `String.prototype.toLowerCase`. -/
def jsLower (s : String) : String := String.mk (s.data.map jsLowerChar)

/-- Boolean test: the first list occurs at the start of the second. -/
def isPrefixB : List Char → List Char → Bool
  | [], _ => true
  | _ :: _, [] => false
  | a :: as, b :: bs => a == b && isPrefixB as bs

/-- Boolean test: the first list occurs contiguously inside the second. -/
def isInfixB (pat : List Char) : List Char → Bool
  | [] => isPrefixB pat []
  | c :: rest => isPrefixB pat (c :: rest) || isInfixB pat rest

/-- JS `s.includes(pat)`: `pat` occurs as a contiguous substring of `s`. -/
def jsIncludes (s pat : String) : Bool := isInfixB pat.data s.data

/-- src/types.ts lines 1-8: one bibliography entry. -/
structure ResearchSnippet where
  id : String
  source : String
  year : Int
  author : String
  content : String
  tags : List String
deriving DecidableEq

/-- src/services/geminiService.ts lines 295-300: the keyword-match predicate of
`findCitationsForSelection`.  A snippet qualifies iff some keyword is a
case-insensitive substring of its content or of one of its tags. -/
def snippetMatches (keywords : List String) (item : ResearchSnippet) : Bool :=
  keywords.any fun k =>
    jsIncludes (jsLower item.content) (jsLower k) ||
    item.tags.any fun t => jsIncludes (jsLower t) (jsLower k)

/-- A citation produced by the generation oracle, before an id is assigned
(src/services/geminiService.ts lines 317-324: the requested JSON schema has
source, year, author, content, tags and no id). -/
structure GenCitation where
  source : String
  year : Int
  author : String
  content : String
  tags : List String
deriving DecidableEq

/-- src/services/geminiService.ts lines 336-339: each generated record is
spread into a `ResearchSnippet` and given a fresh id
(`gen_${Date.now()}_${Math.random()...}`).  The id source is modelled by the
function `freshId`, applied at the position of the record in the generated
array; the code performs no collision check on these ids. -/
def assignIds (freshId : Nat → String) : Nat → List GenCitation → List ResearchSnippet
  | _, [] => []
  | i, g :: gs =>
      { id := freshId i, source := g.source, year := g.year, author := g.author,
        content := g.content, tags := g.tags } :: assignIds freshId (i + 1) gs

/-- Outcome of one call to `findCitationsForSelection`: the returned value (or
thrown error), together with the request made to the citation-generation
oracle (`none` when the oracle was never invoked, `some n` when `n` synthetic
citations were requested). -/
structure CitationCall where
  result : Except String (List ResearchSnippet)
  genRequest : Option Nat

/-- src/services/geminiService.ts lines 286-347: `findCitationsForSelection`.
`keywords` is the output of the keyword-extraction oracle (`extractKeywords`),
`genOracle` the citation-generation oracle (indexed by the requested count),
`freshId` the timestamp/random id source.  A thrown generation error and a
missing/malformed response body are both swallowed by the `try`/`catch` and
the `if (response.text)` guard, falling through to `return localMatches`. -/
def findCitationsForSelection (apiKey : String) (keywords : List String)
    (researchDB : List ResearchSnippet)
    (genOracle : Nat → Except String (Option (List GenCitation)))
    (freshId : Nat → String) : CitationCall :=
  if apiKey = "" then
    { result := Except.error "API Key missing", genRequest := none }
  else if 3 ≤ (researchDB.filter (snippetMatches keywords)).length then
    { result := Except.ok ((researchDB.filter (snippetMatches keywords)).take 3),
      genRequest := none }
  else
    match genOracle (3 - (researchDB.filter (snippetMatches keywords)).length) with
    | Except.ok (some generated) =>
        { result := Except.ok
            (researchDB.filter (snippetMatches keywords) ++ assignIds freshId 0 generated),
          genRequest := some (3 - (researchDB.filter (snippetMatches keywords)).length) }
    | Except.ok none =>
        { result := Except.ok (researchDB.filter (snippetMatches keywords)),
          genRequest := some (3 - (researchDB.filter (snippetMatches keywords)).length) }
    | Except.error _ =>
        { result := Except.ok (researchDB.filter (snippetMatches keywords)),
          genRequest := some (3 - (researchDB.filter (snippetMatches keywords)).length) }

/-- The session state touched by src/App.tsx `handleFindCitations`. -/
structure AppState where
  researchData : List ResearchSnippet
  liveSuggestions : List ResearchSnippet
deriving DecidableEq

/-- src/App.tsx lines 107-128: `handleFindCitations`.  On success the returned
citations are filtered against the current bibliography by id; only the ones
with unseen ids are prepended, and the full returned list becomes the live
suggestions.  A thrown error is caught and logged, leaving the state as is. -/
def handleFindCitations (apiKey : String) (keywords : List String) (st : AppState)
    (genOracle : Nat → Except String (Option (List GenCitation)))
    (freshId : Nat → String) : AppState :=
  match (findCitationsForSelection apiKey keywords st.researchData genOracle freshId).result with
  | Except.error _ => st
  | Except.ok citations =>
      { researchData :=
          if 0 < (citations.filter
              (fun c => !(st.researchData.any (fun e => e.id == c.id)))).length then
            (citations.filter (fun c => !(st.researchData.any (fun e => e.id == c.id))))
              ++ st.researchData
          else st.researchData,
        liveSuggestions := citations }

/-- src/services/mockData.ts: seed entry with id `1`. -/
def snippet1 : ResearchSnippet :=
  { id := "1", source := "Solar Cell Efficiency Limits", year := 2024,
    author := "Smith et al.",
    content := "The Shockley-Queisser limit places a maximum theoretical efficiency of 33.7% for single-junction solar cells. Recent perovskite developments suggest pathways to bypass this via tandem structures.",
    tags := ["solar", "efficiency", "quantum", "energy"] }

/-- src/services/mockData.ts: seed entry with id `2`. -/
def snippet2 : ResearchSnippet :=
  { id := "2", source := "Quantum Decoherence in Warm Systems", year := 2023,
    author := "Rodriguez & Chen",
    content := "Observing quantum effects at room temperature remains a challenge due to rapid decoherence. Our table 3 shows that biological systems may utilize vibronic coupling to sustain coherence longer than expected.",
    tags := ["quantum", "decoherence", "physics"] }

/-- src/services/mockData.ts: seed entry with id `3`. -/
def snippet3 : ResearchSnippet :=
  { id := "3", source := "Narrative Structures in Modern AI", year := 2025,
    author := "Doe, J.",
    content := "Large Language Models tend to converge on \"mean\" prose. To counteract this, injection of specific stylistic tokens is required during the inference pass.",
    tags := ["ai", "llm", "writing"] }

/-- src/services/mockData.ts: seed entry with id `4`. -/
def snippet4 : ResearchSnippet :=
  { id := "4", source := "The Future of Interface Design", year := 2022,
    author := "Nielsen",
    content := "Split-brain interfaces allowing simultaneous creation and consumption reduce cognitive load by 15% compared to tab-switching workflows.",
    tags := ["ux", "interface", "productivity"] }

/-- src/services/mockData.ts: `INITIAL_RESEARCH_DB`. -/
def INITIAL_RESEARCH_DB : List ResearchSnippet := [snippet1, snippet2, snippet3, snippet4]

/-- The field set of src/types.ts `StyleProfile` (lines 18-59), as a runtime
JS object: every field may be `undefined` at runtime, because `analyzeStyle`
builds the value from `JSON.parse` output and casts it with `as StyleProfile`
without checking field presence.  The same shape therefore serves both as the
raw parsed oracle response and as the merged profile. -/
structure StyleRecord where
  tone : Option String
  avgSentenceLength : Option String
  jargonLevel : Option String
  transitionWords : Option (List String)
  rawSummary : Option String
  formalityLevel : Option Int
  sentenceVariance : Option Int
  activeVoice : Option Int
  dialect : Option String
  sentenceStructure : Option String
  sentenceLengthBias : Option String
  vocabularyStyle : Option String
  modifierFrequency : Option String
  connectiveFrequency : Option String
  writingDomain : Option String
  structuralBias : Option String
  useMetaphors : Option Bool
  useAnalogies : Option Bool
  useAnecdotes : Option Bool
  allowContractions : Option Bool
  allowSplitInfinitives : Option Bool
  allowEndingPrepositions : Option Bool
  preferConcreteNouns : Option Bool
  useIdioms : Option Bool
  useRhetoricalDevices : Option Bool
  allowedPunctuation : Option (List String)
  bannedWords : Option (List String)
deriving DecidableEq

/-- JS `v || d` on a string-valued field: `undefined`, `null` and the empty
string are falsy and fall back to the default. -/
def jsOrStr (v : Option String) (d : String) : String :=
  match v with
  | none => d
  | some s => if s = "" then d else s

/-- JS `v || d` on an array-valued field: a present array is always truthy
(even when empty), so only `undefined`/`null` falls back. -/
def jsOrList (v : Option (List String)) (d : List String) : List String := v.getD d

/-- JS `v ?? d` (nullish coalescing) on a boolean field: a present `false` is
kept; only `undefined`/`null` falls back. -/
def jsCoalesce (v : Option Bool) (d : Bool) : Bool := v.getD d

/-- src/services/geminiService.ts lines 56-76: the success-path merge of
`analyzeStyle`, `{...parsed, dialect: parsed.dialect || 'American', ...}`.
Only the seventeen fields listed in the source receive fallbacks; `tone`,
`avgSentenceLength`, `jargonLevel`, `transitionWords`, `rawSummary`,
`formalityLevel`, `sentenceVariance`, `activeVoice`, `useIdioms` and
`useRhetoricalDevices` pass through unchanged. -/
def mergeStyle (parsed : StyleRecord) : StyleRecord :=
  { parsed with
    dialect := some (jsOrStr parsed.dialect "American"),
    sentenceStructure := some (jsOrStr parsed.sentenceStructure "Natural"),
    sentenceLengthBias := some (jsOrStr parsed.sentenceLengthBias "Varied"),
    vocabularyStyle := some (jsOrStr parsed.vocabularyStyle "Literal"),
    modifierFrequency := some (jsOrStr parsed.modifierFrequency "Medium"),
    connectiveFrequency := some (jsOrStr parsed.connectiveFrequency "Medium"),
    writingDomain := some (jsOrStr parsed.writingDomain "General"),
    structuralBias := some (jsOrStr parsed.structuralBias "Default"),
    useMetaphors := some (jsCoalesce parsed.useMetaphors false),
    useAnalogies := some (jsCoalesce parsed.useAnalogies false),
    useAnecdotes := some (jsCoalesce parsed.useAnecdotes false),
    allowContractions := some (jsCoalesce parsed.allowContractions true),
    allowSplitInfinitives := some (jsCoalesce parsed.allowSplitInfinitives true),
    allowEndingPrepositions := some (jsCoalesce parsed.allowEndingPrepositions true),
    preferConcreteNouns := some (jsCoalesce parsed.preferConcreteNouns true),
    allowedPunctuation := some (jsOrList parsed.allowedPunctuation [",", "."]),
    bannedWords := some (jsOrList parsed.bannedWords []) }

/-- src/services/geminiService.ts lines 82-110: the profile returned by the
`catch` branch of `analyzeStyle` ("Return safe default on error").  Every
field is defined here. -/
def errorProfile : StyleRecord :=
  { tone := some "Error",
    avgSentenceLength := some "Error",
    jargonLevel := some "Error",
    transitionWords := some [],
    rawSummary := some "Failed to analyze style.",
    formalityLevel := some 50,
    sentenceVariance := some 50,
    activeVoice := some 50,
    dialect := some "American",
    sentenceStructure := some "Natural",
    sentenceLengthBias := some "Varied",
    vocabularyStyle := some "Literal",
    modifierFrequency := some "Medium",
    connectiveFrequency := some "Medium",
    writingDomain := some "General",
    structuralBias := some "Default",
    useMetaphors := some false,
    useAnalogies := some false,
    useAnecdotes := some false,
    allowContractions := some true,
    allowSplitInfinitives := some true,
    allowEndingPrepositions := some true,
    preferConcreteNouns := some true,
    useIdioms := some false,
    useRhetoricalDevices := some false,
    allowedPunctuation := some [],
    bannedWords := some [] }

/-- A raw response in which every field is absent (oracle answered `{}`). -/
def emptyRaw : StyleRecord :=
  { tone := none, avgSentenceLength := none, jargonLevel := none,
    transitionWords := none, rawSummary := none, formalityLevel := none,
    sentenceVariance := none, activeVoice := none, dialect := none,
    sentenceStructure := none, sentenceLengthBias := none,
    vocabularyStyle := none, modifierFrequency := none,
    connectiveFrequency := none, writingDomain := none, structuralBias := none,
    useMetaphors := none, useAnalogies := none, useAnecdotes := none,
    allowContractions := none, allowSplitInfinitives := none,
    allowEndingPrepositions := none, preferConcreteNouns := none,
    useIdioms := none, useRhetoricalDevices := none,
    allowedPunctuation := none, bannedWords := none }

/-- A raw response supplying every key the `analyzeStyle` prompt asks for
(src/services/geminiService.ts lines 16-41).  The prompt never requests
`useIdioms` or `useRhetoricalDevices`, so even this fully compliant response
leaves them absent. -/
def promptCompliantRaw : StyleRecord :=
  { tone := some "Objective", avgSentenceLength := some "Medium",
    jargonLevel := some "High", transitionWords := some ["however"],
    rawSummary := some "Sample summary.", formalityLevel := some 80,
    sentenceVariance := some 40, activeVoice := some 60,
    dialect := some "British", sentenceStructure := some "Periodic",
    sentenceLengthBias := some "Short", vocabularyStyle := some "Complex",
    modifierFrequency := some "Low", connectiveFrequency := some "High",
    writingDomain := some "Academic", structuralBias := some "Triplets (3s)",
    useMetaphors := some true, useAnalogies := some true,
    useAnecdotes := some false, allowContractions := some false,
    allowSplitInfinitives := some false, allowEndingPrepositions := some false,
    preferConcreteNouns := some false, useIdioms := none,
    useRhetoricalDevices := none, allowedPunctuation := some [";"],
    bannedWords := some ["delve"] }

/-- Outcome of one call to `analyzeStyle`: the returned value (or thrown
error) and the number of style-analysis oracle invocations performed. -/
structure AnalyzeCall where
  result : Except String StyleRecord
  oracleCalls : Nat

/-- src/services/geminiService.ts lines 10-112: `analyzeStyle`.  With an empty
API key it throws before contacting the oracle.  Otherwise the oracle is
contacted exactly once; a parsed body goes through `mergeStyle`, while a
thrown error, a parse error, or an absent/empty response body (the inner
`throw new Error("No data returned")`) all land in the `catch` and yield
`errorProfile`. -/
def analyzeStyle (apiKey : String) (oracle : Except String (Option StyleRecord)) : AnalyzeCall :=
  if apiKey = "" then { result := Except.error "API Key missing", oracleCalls := 0 }
  else
    match oracle with
    | Except.ok (some parsed) => { result := Except.ok (mergeStyle parsed), oracleCalls := 1 }
    | Except.ok none => { result := Except.ok errorProfile, oracleCalls := 1 }
    | Except.error _ => { result := Except.ok errorProfile, oracleCalls := 1 }

/-- Outcome of src/App.tsx `handleCalibrateFromEditor`: whether the request
was rejected synchronously by the length precondition, how many times the
style-analysis oracle ran, and the freshly installed profile, if any. -/
structure CalibrateOutcome where
  rejected : Bool
  oracleCalls : Nat
  newProfile : Option StyleRecord
deriving DecidableEq

/-- src/App.tsx lines 146-160: `handleCalibrateFromEditor`.  Content shorter
than 50 characters is rejected with an alert before `analyzeStyle` is ever
called; otherwise `analyzeStyle` runs once, a thrown error being caught and
logged (profile left unchanged). -/
def handleCalibrateFromEditor (apiKey content : String)
    (oracle : Except String (Option StyleRecord)) : CalibrateOutcome :=
  if content.length < 50 then
    { rejected := true, oracleCalls := 0, newProfile := none }
  else
    match analyzeStyle apiKey oracle with
    | { result := Except.ok p, oracleCalls := n } =>
        { rejected := false, oracleCalls := n, newProfile := some p }
    | { result := Except.error _, oracleCalls := n } =>
        { rejected := false, oracleCalls := n, newProfile := none }

/-- src/services/geminiService.ts lines 383-401: `extractKeywords`.  It never
throws: an empty API key or short text short-circuits to `[]`, and the
`try`/`catch` plus the `response.text || "[]"` default turn every oracle
failure into `[]`. -/
def extractKeywords (apiKey text : String)
    (oracle : Except String (Option (List String))) : Except String (List String) :=
  if apiKey = "" ∨ text.length < 50 then Except.ok []
  else
    match oracle with
    | Except.ok (some ks) => Except.ok ks
    | Except.ok none => Except.ok []
    | Except.error _ => Except.ok []

/-- src/services/geminiService.ts lines 349-381: `generateStyleSample`.  An
empty API key throws; an oracle failure is caught and becomes the literal
"Error generating sample.", a missing/empty response text becomes
"Failed to generate sample.". -/
def generateStyleSample (apiKey : String)
    (oracle : Except String (Option String)) : Except String String :=
  if apiKey = "" then Except.error "API Key missing"
  else
    match oracle with
    | Except.ok (some t) =>
        Except.ok (if t = "" then "Failed to generate sample." else t)
    | Except.ok none => Except.ok "Failed to generate sample."
    | Except.error _ => Except.ok "Error generating sample."

/-- src/services/geminiService.ts lines 241-261: `rewriteSection`.  An empty
API key throws; there is no `catch`, so an oracle error propagates, and a
missing/empty response text falls back to the original selection
(`response.text || selection`). -/
def rewriteSection (apiKey selection : String)
    (oracle : Except String (Option String)) : Except String String :=
  if apiKey = "" then Except.error "API Key missing"
  else
    match oracle with
    | Except.ok (some t) => Except.ok (if t = "" then selection else t)
    | Except.ok none => Except.ok selection
    | Except.error e => Except.error e

/-- src/services/geminiService.ts lines 264-283: `continueSection`.  Like
`rewriteSection` but the falsy-text fallback is the empty string
(`response.text || ""`). -/
def continueSection (apiKey : String)
    (oracle : Except String (Option String)) : Except String String :=
  if apiKey = "" then Except.error "API Key missing"
  else
    match oracle with
    | Except.ok (some t) => Except.ok t
    | Except.ok none => Except.ok ""
    | Except.error e => Except.error e

/-- src/services/geminiService.ts lines 229-233: the id-refresh applied to
`ghostWrite`'s `newReferences` (`{...ref, id: gen_...}` per element). -/
def reassignIds (freshId : Nat → String) : Nat → List ResearchSnippet → List ResearchSnippet
  | _, [] => []
  | i, r :: rs => { r with id := freshId i } :: reassignIds freshId (i + 1) rs

/-- src/services/geminiService.ts lines 177-238: `ghostWrite`.  An empty API
key throws; there is no `catch`, so an oracle error propagates; an absent
response text throws "Failed to generate content"; on success the new
references get fresh ids. -/
def ghostWrite (apiKey : String)
    (oracle : Except String (Option (String × List ResearchSnippet)))
    (freshId : Nat → String) : Except String (String × List ResearchSnippet) :=
  if apiKey = "" then Except.error "API Key missing"
  else
    match oracle with
    | Except.ok (some (para, refs)) => Except.ok (para, reassignIds freshId 0 refs)
    | Except.ok none => Except.error "Failed to generate content"
    | Except.error e => Except.error e

/-- C1: with at least 3 keyword-qualifying local snippets, the resolver
returns exactly the first 3 qualifying snippets in collection order and never
contacts the citation-generation oracle. -/
theorem findCitations_local_short_circuit
    (apiKey : String) (kws : List String) (db : List ResearchSnippet)
    (gen : Nat → Except String (Option (List GenCitation))) (f : Nat → String)
    (hk : apiKey ≠ "")
    (h3 : 3 ≤ (db.filter (snippetMatches kws)).length) :
    (findCitationsForSelection apiKey kws db gen f).result
        = Except.ok ((db.filter (snippetMatches kws)).take 3)
      ∧ (findCitationsForSelection apiKey kws db gen f).genRequest = none := by
  unfold findCitationsForSelection
  rw [if_neg hk, if_pos h3]
  exact ⟨rfl, rfl⟩

/-- C1 witness: on the seed library all four snippets match the keywords
`Quantum`, `LLM`, `UX` (case-insensitively); the first three are returned and
the erroring stub generation oracle is never consulted. -/
theorem findCitations_local_short_circuit_witness :
    (INITIAL_RESEARCH_DB.filter (snippetMatches ["Quantum", "LLM", "UX"]))
        = [snippet1, snippet2, snippet3, snippet4]
  ∧ 3 ≤ (INITIAL_RESEARCH_DB.filter (snippetMatches ["Quantum", "LLM", "UX"])).length
  ∧ ((findCitationsForSelection "key" ["Quantum", "LLM", "UX"] INITIAL_RESEARCH_DB
        (fun _ => Except.error "stub: must not be invoked") (fun _ => "fresh")).result
        = Except.ok ((INITIAL_RESEARCH_DB.filter (snippetMatches ["Quantum", "LLM", "UX"])).take 3)
      ∧ (findCitationsForSelection "key" ["Quantum", "LLM", "UX"] INITIAL_RESEARCH_DB
          (fun _ => Except.error "stub: must not be invoked") (fun _ => "fresh")).genRequest
          = none) :=
  ⟨by decide, by decide,
    findCitations_local_short_circuit "key" ["Quantum", "LLM", "UX"] INITIAL_RESEARCH_DB
      (fun _ => Except.error "stub: must not be invoked") (fun _ => "fresh")
      (by decide) (by decide)⟩

/-- Assigning ids preserves the number of generated citations. -/
theorem assignIds_length (f : Nat → String) (i : Nat) (gs : List GenCitation) :
    (assignIds f i gs).length = gs.length := by
  induction gs generalizing i with
  | nil => rfl
  | cons g gs ih => simp [assignIds, ih]

/-- C2: with 0-2 qualifying local snippets, the resolver asks the generation
oracle for exactly `3 - matches` synthetic citations and returns the local
matches followed by the synthetic ones; when the oracle honours the requested
count the total length is at most 3. -/
theorem findCitations_generation_fill
    (apiKey : String) (kws : List String) (db : List ResearchSnippet)
    (gen : Nat → Except String (Option (List GenCitation))) (f : Nat → String)
    (gs : List GenCitation)
    (hk : apiKey ≠ "")
    (h2 : (db.filter (snippetMatches kws)).length ≤ 2)
    (hor : gen (3 - (db.filter (snippetMatches kws)).length) = Except.ok (some gs))
    (hg : gs.length ≤ 3 - (db.filter (snippetMatches kws)).length) :
    (findCitationsForSelection apiKey kws db gen f).genRequest
        = some (3 - (db.filter (snippetMatches kws)).length)
  ∧ (findCitationsForSelection apiKey kws db gen f).result
      = Except.ok (db.filter (snippetMatches kws) ++ assignIds f 0 gs)
  ∧ (db.filter (snippetMatches kws) ++ assignIds f 0 gs).length ≤ 3 := by
  have h3 : ¬ 3 ≤ (db.filter (snippetMatches kws)).length := by omega
  unfold findCitationsForSelection
  rw [if_neg hk, if_neg h3, hor]
  refine ⟨rfl, rfl, ?_⟩
  rw [List.length_append, assignIds_length]
  omega

/-- A generation oracle stub that answers two synthetic citations when asked
for two and errors on any other request. -/
def genOracleTwo : Nat → Except String (Option (List GenCitation)) :=
  fun n =>
    if n = 2 then
      Except.ok (some
        [{ source := "Synthetic Quantum Review", year := 2024, author := "Gen A",
           content := "Synthetic support one.", tags := ["quantum"] },
         { source := "Synthetic Coherence Study", year := 2025, author := "Gen B",
           content := "Synthetic support two.", tags := ["coherence"] }])
    else Except.error "unexpected request"

/-- A fresh-id source yielding `gen_a` then `gen_b`. -/
def freshAB : Nat → String := fun i => if i = 0 then "gen_a" else "gen_b"

/-- C2 witness: the spec example: a one-snippet bibliography matching
`quantum`, shortfall 2, stub oracle returning 2 items; the result has length 3
and the local match comes first. -/
theorem findCitations_generation_fill_witness :
    ([snippet2].filter (snippetMatches ["quantum"])).length ≤ 2
  ∧ genOracleTwo (3 - ([snippet2].filter (snippetMatches ["quantum"])).length)
      = Except.ok (some
        [{ source := "Synthetic Quantum Review", year := 2024, author := "Gen A",
           content := "Synthetic support one.", tags := ["quantum"] },
         { source := "Synthetic Coherence Study", year := 2025, author := "Gen B",
           content := "Synthetic support two.", tags := ["coherence"] }])
  ∧ ((findCitationsForSelection "key" ["quantum"] [snippet2] genOracleTwo freshAB).genRequest
        = some (3 - ([snippet2].filter (snippetMatches ["quantum"])).length)
      ∧ (findCitationsForSelection "key" ["quantum"] [snippet2] genOracleTwo freshAB).result
          = Except.ok ([snippet2].filter (snippetMatches ["quantum"]) ++ assignIds freshAB 0
              [{ source := "Synthetic Quantum Review", year := 2024, author := "Gen A",
                 content := "Synthetic support one.", tags := ["quantum"] },
               { source := "Synthetic Coherence Study", year := 2025, author := "Gen B",
                 content := "Synthetic support two.", tags := ["coherence"] }])
      ∧ ([snippet2].filter (snippetMatches ["quantum"]) ++ assignIds freshAB 0
            [{ source := "Synthetic Quantum Review", year := 2024, author := "Gen A",
               content := "Synthetic support one.", tags := ["quantum"] },
             { source := "Synthetic Coherence Study", year := 2025, author := "Gen B",
               content := "Synthetic support two.", tags := ["coherence"] }]).length ≤ 3) :=
  ⟨by decide, by rfl,
    findCitations_generation_fill "key" ["quantum"] [snippet2] genOracleTwo freshAB _
      (by decide) (by decide) (by rfl) (by decide)⟩

/-- C3: if the generation oracle call fails (throws, or yields a malformed or
empty response), the resolver returns exactly the local matches and no
exception escapes to the caller. -/
theorem findCitations_generation_failure_degrades
    (apiKey : String) (kws : List String) (db : List ResearchSnippet)
    (gen : Nat → Except String (Option (List GenCitation))) (f : Nat → String)
    (hk : apiKey ≠ "")
    (h2 : (db.filter (snippetMatches kws)).length ≤ 2)
    (hfail : (∃ e, gen (3 - (db.filter (snippetMatches kws)).length) = Except.error e)
      ∨ gen (3 - (db.filter (snippetMatches kws)).length) = Except.ok none) :
    (findCitationsForSelection apiKey kws db gen f).result
      = Except.ok (db.filter (snippetMatches kws)) := by
  have h3 : ¬ 3 ≤ (db.filter (snippetMatches kws)).length := by omega
  unfold findCitationsForSelection
  rw [if_neg hk, if_neg h3]
  rcases hfail with ⟨e, he⟩ | he <;> rw [he]

/-- C3 witness: a one-snippet bibliography and a throwing generation oracle;
the resolver still returns the single local match. -/
theorem findCitations_generation_failure_degrades_witness :
    ([snippet2].filter (snippetMatches ["quantum"])) = [snippet2]
  ∧ (findCitationsForSelection "key" ["quantum"] [snippet2]
        (fun _ => Except.error "network down") freshAB).result
      = Except.ok ([snippet2].filter (snippetMatches ["quantum"])) :=
  ⟨by decide,
    findCitations_generation_failure_degrades "key" ["quantum"] [snippet2]
      (fun _ => Except.error "network down") freshAB
      (by decide) (by decide) (Or.inl ⟨"network down", rfl⟩)⟩

/-- Every id among the citations produced by `assignIds f i gs` is `f (i + j)`
for the position `j` of the citation in `gs`. -/
theorem assignIds_id_of_mem (f : Nat → String) :
    ∀ (i : Nat) (gs : List GenCitation) (c : ResearchSnippet),
      c ∈ assignIds f i gs → ∃ j, j < gs.length ∧ c.id = f (i + j) := by
  intro i gs
  induction gs generalizing i with
  | nil => intro c h; simp [assignIds] at h
  | cons g gs ih =>
      intro c h
      simp only [assignIds, List.mem_cons] at h
      rcases h with rfl | h
      · exact ⟨0, by simp, by simp⟩
      · obtain ⟨j, hj, hid⟩ := ih (i + 1) c h
        refine ⟨j + 1, by simpa using Nat.succ_lt_succ hj, ?_⟩
        rw [hid]
        congr 1
        omega

/-- If the id source is injective on the index window it is applied to, the
ids produced by `assignIds` are pairwise distinct. -/
theorem assignIds_ids_nodup (f : Nat → String) :
    ∀ (i : Nat) (gs : List GenCitation),
      (∀ j k, j < gs.length → k < gs.length → f (i + j) = f (i + k) → j = k) →
      ((assignIds f i gs).map (fun r => r.id)).Nodup := by
  intro i gs
  induction gs generalizing i with
  | nil => intro _; simp [assignIds]
  | cons g gs ih =>
      intro hinj
      simp only [assignIds, List.map_cons]
      rw [List.nodup_cons]
      constructor
      · intro hmem
        rw [List.mem_map] at hmem
        obtain ⟨c, hc, hcid⟩ := hmem
        obtain ⟨j, hj, hid⟩ := assignIds_id_of_mem f (i + 1) gs c hc
        have hrw : i + 1 + j = i + (j + 1) := by omega
        have : (0 : Nat) = j + 1 := by
          refine hinj 0 (j + 1) (by simp) (by simpa using Nat.succ_lt_succ hj) ?_
          rw [Nat.add_zero, ← hrw, ← hid, hcid]
        omega
      · refine ih (i + 1) ?_
        intro j k hj hk hf
        have hrj : i + 1 + j = i + (j + 1) := by omega
        have hrk : i + 1 + k = i + (k + 1) := by omega
        have := hinj (j + 1) (k + 1) (by simpa using Nat.succ_lt_succ hj)
          (by simpa using Nat.succ_lt_succ hk) (by rw [← hrj, ← hrk]; exact hf)
        omega

/-- A generation oracle stub answering a single synthetic citation. -/
def genOne : Nat → Except String (Option (List GenCitation)) :=
  fun _ => Except.ok (some
    [{ source := "T", year := 2024, author := "B", content := "c", tags := ["t"] }])

/-- C4 counterexample: the code attaches ids from the timestamp/random source
without any collision check, so when that source repeats an id already in the
bibliography (here `1`, the id of `snippet1`), the synthetic citation in the
returned list carries an id already present in the bibliography, refuting the
claim as stated. -/
theorem findCitations_fresh_ids_cex :
    (findCitationsForSelection "key" [] [snippet1] genOne (fun _ => "1")).result
        = Except.ok [{ id := "1", source := "T", year := 2024, author := "B",
                       content := "c", tags := ["t"] }]
  ∧ snippet1.id = "1" := ⟨rfl, rfl⟩

/-- C4 amended: synthetic ids are drawn from the timestamp/random id source
with no collision check; whenever that source yields pairwise-distinct values
that avoid every id in the bibliography, every synthetic citation in the
returned list carries an id distinct from every bibliography id and from every
other id generated in the same call. -/
theorem findCitations_fresh_ids
    (apiKey : String) (kws : List String) (db : List ResearchSnippet)
    (gen : Nat → Except String (Option (List GenCitation))) (f : Nat → String)
    (gs : List GenCitation)
    (hk : apiKey ≠ "")
    (h2 : (db.filter (snippetMatches kws)).length ≤ 2)
    (hor : gen (3 - (db.filter (snippetMatches kws)).length) = Except.ok (some gs))
    (havoid : ∀ j ∈ List.range gs.length, f j ∉ db.map (fun e => e.id))
    (hinj : ∀ j ∈ List.range gs.length, ∀ k ∈ List.range gs.length, f j = f k → j = k) :
    (findCitationsForSelection apiKey kws db gen f).result
        = Except.ok (db.filter (snippetMatches kws) ++ assignIds f 0 gs)
  ∧ (∀ c ∈ assignIds f 0 gs, ∀ e ∈ db, c.id ≠ e.id)
  ∧ ((assignIds f 0 gs).map (fun r => r.id)).Nodup := by
  have h3 : ¬ 3 ≤ (db.filter (snippetMatches kws)).length := by omega
  refine ⟨?_, ?_, ?_⟩
  · unfold findCitationsForSelection
    rw [if_neg hk, if_neg h3, hor]
  · intro c hc e he heq
    obtain ⟨j, hj, hid⟩ := assignIds_id_of_mem f 0 gs c hc
    rw [Nat.zero_add] at hid
    refine havoid j (List.mem_range.mpr hj) ?_
    rw [List.mem_map]
    exact ⟨e, he, by rw [← hid, heq]⟩
  · refine assignIds_ids_nodup f 0 gs ?_
    intro j k hj hk hf
    exact hinj j (List.mem_range.mpr hj) k (List.mem_range.mpr hk) (by simpa using hf)

/-- A generation oracle stub answering three synthetic citations. -/
def genThree : Nat → Except String (Option (List GenCitation)) :=
  fun _ => Except.ok (some
    [{ source := "S0", year := 2024, author := "A0", content := "c0", tags := ["t0"] },
     { source := "S1", year := 2024, author := "A1", content := "c1", tags := ["t1"] },
     { source := "S2", year := 2024, author := "A2", content := "c2", tags := ["t2"] }])

/-- A fresh-id source yielding the distinct ids `a0`, `a1`, `a2`. -/
def freshThree : Nat → String :=
  fun j => if j = 0 then "a0" else if j = 1 then "a1" else "a2"

/-- C4 witness: with a non-repeating id source avoiding the bibliography ids,
the three synthetic citations carry fresh, pairwise-distinct ids. -/
theorem findCitations_fresh_ids_witness :
    ([snippet1].filter (snippetMatches [])).length ≤ 2
  ∧ (∀ j ∈ List.range 3, freshThree j ∉ [snippet1].map (fun e => e.id))
  ∧ (∀ j ∈ List.range 3, ∀ k ∈ List.range 3, freshThree j = freshThree k → j = k)
  ∧ ((findCitationsForSelection "key" [] [snippet1] genThree freshThree).result
        = Except.ok ([snippet1].filter (snippetMatches []) ++ assignIds freshThree 0
            [{ source := "S0", year := 2024, author := "A0", content := "c0", tags := ["t0"] },
             { source := "S1", year := 2024, author := "A1", content := "c1", tags := ["t1"] },
             { source := "S2", year := 2024, author := "A2", content := "c2", tags := ["t2"] }])
      ∧ (∀ c ∈ assignIds freshThree 0
            [{ source := "S0", year := 2024, author := "A0", content := "c0", tags := ["t0"] },
             { source := "S1", year := 2024, author := "A1", content := "c1", tags := ["t1"] },
             { source := "S2", year := 2024, author := "A2", content := "c2", tags := ["t2"] }],
          ∀ e ∈ [snippet1], c.id ≠ e.id)
      ∧ ((assignIds freshThree 0
            [{ source := "S0", year := 2024, author := "A0", content := "c0", tags := ["t0"] },
             { source := "S1", year := 2024, author := "A1", content := "c1", tags := ["t1"] },
             { source := "S2", year := 2024, author := "A2", content := "c2", tags := ["t2"] }]).map
            (fun r => r.id)).Nodup) :=
  ⟨by decide, by decide, by decide,
    findCitations_fresh_ids "key" [] [snippet1] genThree freshThree _
      (by decide) (by decide) (by rfl) (by decide) (by decide)⟩

/-- Membership in the `newCitations` filter of `handleFindCitations`: a
returned citation is kept exactly when its id is not already in the
bibliography. -/
theorem mem_newCitations_iff (db cs : List ResearchSnippet) (c : ResearchSnippet) :
    c ∈ cs.filter (fun c => !(db.any (fun e => e.id == c.id))) ↔
      c ∈ cs ∧ c.id ∉ db.map (fun e => e.id) := by
  simp only [List.mem_filter, Bool.not_eq_true', List.any_eq_false, beq_eq_false_iff_ne,
    ne_eq, List.mem_map, not_exists]
  aesop

/-- C5: after a completed citation-resolution call, every returned citation
whose id is absent from the bibliography has been added to it, nothing already
in the bibliography is removed or modified (it survives as a suffix, in
order), and every entry of the new bibliography is either an old entry or a
returned citation whose id was fresh (deduplication by id). -/
theorem handleFindCitations_merges_new
    (apiKey : String) (kws : List String) (st : AppState)
    (gen : Nat → Except String (Option (List GenCitation))) (f : Nat → String)
    (cs : List ResearchSnippet)
    (hres : (findCitationsForSelection apiKey kws st.researchData gen f).result
      = Except.ok cs) :
    (∀ c ∈ cs, c.id ∉ st.researchData.map (fun e => e.id) →
        c ∈ (handleFindCitations apiKey kws st gen f).researchData)
  ∧ st.researchData <:+ (handleFindCitations apiKey kws st gen f).researchData
  ∧ (∀ c ∈ (handleFindCitations apiKey kws st gen f).researchData,
        c ∈ st.researchData ∨
          (c ∈ cs ∧ c.id ∉ st.researchData.map (fun e => e.id))) := by
  have hred : handleFindCitations apiKey kws st gen f =
      { researchData :=
          if 0 < (cs.filter
              (fun c => !(st.researchData.any (fun e => e.id == c.id)))).length then
            (cs.filter (fun c => !(st.researchData.any (fun e => e.id == c.id))))
              ++ st.researchData
          else st.researchData,
        liveSuggestions := cs } := by
    unfold handleFindCitations
    rw [hres]
  rw [hred]
  by_cases hpos :
      0 < (cs.filter (fun c => !(st.researchData.any (fun e => e.id == c.id)))).length
  · rw [if_pos hpos]
    refine ⟨?_, ?_, ?_⟩
    · intro c hc hid
      exact List.mem_append.mpr (Or.inl ((mem_newCitations_iff _ _ _).mpr ⟨hc, hid⟩))
    · exact List.suffix_append _ _
    · intro c hc
      rcases List.mem_append.mp hc with h | h
      · exact Or.inr ((mem_newCitations_iff _ _ _).mp h)
      · exact Or.inl h
  · rw [if_neg hpos]
    refine ⟨?_, ?_, ?_⟩
    · intro c hc hid
      exact absurd
        (List.length_pos.mpr (List.ne_nil_of_mem ((mem_newCitations_iff _ _ _).mpr ⟨hc, hid⟩)))
        hpos
    · exact List.suffix_refl _
    · intro c hc
      exact Or.inl hc

/-- C5 witness: resolving against a one-snippet bibliography with the
two-item stub oracle yields one local plus two synthetic citations; merging
installs exactly the two fresh-id citations in front of the untouched old
bibliography. -/
theorem handleFindCitations_merges_new_witness :
    (findCitationsForSelection "key" ["quantum"]
        ({ researchData := [snippet2], liveSuggestions := [] } : AppState).researchData
        genOracleTwo freshAB).result
      = Except.ok
        [snippet2,
         { id := "gen_a", source := "Synthetic Quantum Review", year := 2024,
           author := "Gen A", content := "Synthetic support one.", tags := ["quantum"] },
         { id := "gen_b", source := "Synthetic Coherence Study", year := 2025,
           author := "Gen B", content := "Synthetic support two.", tags := ["coherence"] }]
  ∧ (handleFindCitations "key" ["quantum"]
        { researchData := [snippet2], liveSuggestions := [] } genOracleTwo freshAB).researchData
      = [{ id := "gen_a", source := "Synthetic Quantum Review", year := 2024,
           author := "Gen A", content := "Synthetic support one.", tags := ["quantum"] },
         { id := "gen_b", source := "Synthetic Coherence Study", year := 2025,
           author := "Gen B", content := "Synthetic support two.", tags := ["coherence"] },
         snippet2]
  ∧ ((∀ c ∈
        [snippet2,
         { id := "gen_a", source := "Synthetic Quantum Review", year := 2024,
           author := "Gen A", content := "Synthetic support one.", tags := ["quantum"] },
         { id := "gen_b", source := "Synthetic Coherence Study", year := 2025,
           author := "Gen B", content := "Synthetic support two.", tags := ["coherence"] }],
        c.id ∉ ({ researchData := [snippet2], liveSuggestions := [] } : AppState).researchData.map
            (fun e => e.id) →
          c ∈ (handleFindCitations "key" ["quantum"]
              { researchData := [snippet2], liveSuggestions := [] } genOracleTwo
              freshAB).researchData)
      ∧ ({ researchData := [snippet2], liveSuggestions := [] } : AppState).researchData <:+
          (handleFindCitations "key" ["quantum"]
            { researchData := [snippet2], liveSuggestions := [] } genOracleTwo
            freshAB).researchData
      ∧ (∀ c ∈ (handleFindCitations "key" ["quantum"]
            { researchData := [snippet2], liveSuggestions := [] } genOracleTwo
            freshAB).researchData,
          c ∈ ({ researchData := [snippet2], liveSuggestions := [] } : AppState).researchData ∨
            (c ∈
              [snippet2,
               { id := "gen_a", source := "Synthetic Quantum Review", year := 2024,
                 author := "Gen A", content := "Synthetic support one.", tags := ["quantum"] },
               { id := "gen_b", source := "Synthetic Coherence Study", year := 2025,
                 author := "Gen B", content := "Synthetic support two.", tags := ["coherence"] }] ∧
              c.id ∉
                ({ researchData := [snippet2], liveSuggestions := [] } :
                  AppState).researchData.map (fun e => e.id)))) :=
  ⟨by rfl, by rfl,
    handleFindCitations_merges_new "key" ["quantum"]
      { researchData := [snippet2], liveSuggestions := [] } genOracleTwo freshAB
      [snippet2,
       { id := "gen_a", source := "Synthetic Quantum Review", year := 2024,
         author := "Gen A", content := "Synthetic support one.", tags := ["quantum"] },
       { id := "gen_b", source := "Synthetic Coherence Study", year := 2025,
         author := "Gen B", content := "Synthetic support two.", tags := ["coherence"] }]
      (by rfl)⟩

/-- C6: the success path of `analyzeStyle` does not populate every
`StyleProfile` field.  On the empty parsed response the merged profile leaves
`tone`, `avgSentenceLength`, `jargonLevel`, `transitionWords`, `rawSummary`,
`formalityLevel`, `sentenceVariance`, `activeVoice`, `useIdioms` and
`useRhetoricalDevices` undefined (only the seventeen defaulted fields are
filled, e.g. `dialect`), and even a response supplying every key the prompt
requests leaves `useIdioms` and `useRhetoricalDevices` undefined, because the
prompt never asks for them. -/
theorem analyzeStyle_partial_fields_undefined :
    (analyzeStyle "key" (Except.ok (some emptyRaw))).result = Except.ok (mergeStyle emptyRaw)
  ∧ (mergeStyle emptyRaw).tone = none
  ∧ (mergeStyle emptyRaw).avgSentenceLength = none
  ∧ (mergeStyle emptyRaw).jargonLevel = none
  ∧ (mergeStyle emptyRaw).transitionWords = none
  ∧ (mergeStyle emptyRaw).rawSummary = none
  ∧ (mergeStyle emptyRaw).formalityLevel = none
  ∧ (mergeStyle emptyRaw).sentenceVariance = none
  ∧ (mergeStyle emptyRaw).activeVoice = none
  ∧ (mergeStyle emptyRaw).useIdioms = none
  ∧ (mergeStyle emptyRaw).useRhetoricalDevices = none
  ∧ (mergeStyle promptCompliantRaw).useIdioms = none
  ∧ (mergeStyle promptCompliantRaw).useRhetoricalDevices = none
  ∧ (mergeStyle emptyRaw).dialect = some "American" :=
  ⟨rfl, rfl, rfl, rfl, rfl, rfl, rfl, rfl, rfl, rfl, rfl, rfl, rfl, rfl⟩

/-- C7: when the style-analysis oracle call fails (the request throws, or the
response body is absent so the inner "No data returned" throw fires), the
caught failure yields the distinguished error profile — `tone`,
`avgSentenceLength` and `jargonLevel` are the literal "Error" and the numeric
fields are the neutral 50 — and no error escapes to the caller. -/
theorem analyzeStyle_failure_error_profile (apiKey : String)
    (oracle : Except String (Option StyleRecord))
    (hk : apiKey ≠ "")
    (hfail : (∃ e, oracle = Except.error e) ∨ oracle = Except.ok none) :
    (analyzeStyle apiKey oracle).result = Except.ok errorProfile
  ∧ errorProfile.tone = some "Error"
  ∧ errorProfile.avgSentenceLength = some "Error"
  ∧ errorProfile.jargonLevel = some "Error"
  ∧ errorProfile.formalityLevel = some 50
  ∧ errorProfile.sentenceVariance = some 50
  ∧ errorProfile.activeVoice = some 50 := by
  refine ⟨?_, rfl, rfl, rfl, rfl, rfl, rfl⟩
  unfold analyzeStyle
  rw [if_neg hk]
  rcases hfail with ⟨e, he⟩ | he <;> rw [he]

/-- C7 witness: a throwing style-analysis oracle still produces the error
profile, with no exception propagated. -/
theorem analyzeStyle_failure_error_profile_witness :
    (analyzeStyle "key" (Except.error "network down")).result = Except.ok errorProfile
  ∧ errorProfile.tone = some "Error"
  ∧ errorProfile.avgSentenceLength = some "Error"
  ∧ errorProfile.jargonLevel = some "Error"
  ∧ errorProfile.formalityLevel = some 50
  ∧ errorProfile.sentenceVariance = some 50
  ∧ errorProfile.activeVoice = some 50 :=
  analyzeStyle_failure_error_profile "key" (Except.error "network down")
    (by decide) (Or.inl ⟨"network down", rfl⟩)

/-- A raw style response whose only present field is an empty-string
`dialect`. -/
def blankDialectRaw : StyleRecord := { emptyRaw with dialect := some "" }

/-- C8 counterexample: `dialect` is present (the empty string), yet the merge
replaces it with the default "American" instead of keeping the supplied
value, because the source uses JS `||`, which treats a present empty string
as absent. -/
theorem mergeStyle_empty_string_cex :
    blankDialectRaw.dialect = some ""
  ∧ (mergeStyle blankDialectRaw).dialect = some "American"
  ∧ (mergeStyle blankDialectRaw).dialect ≠ blankDialectRaw.dialect :=
  ⟨rfl, rfl, by decide⟩

/-- C8 amended: the success-path merge is a field-by-field coalesce with JS
truthiness: a present boolean (nullish coalescing) and a present array are
always kept, and a present non-empty string is kept; an absent field gets its
documented default (dialect `American`, the grammar-pedantry booleans `true`,
arrays an empty or minimal seed list) — but a present empty string also falls
back to the default (JS `||`), which is the one departure from the claim as
stated. -/
theorem mergeStyle_coalesce (raw : StyleRecord) :
    (raw.dialect = none → (mergeStyle raw).dialect = some "American")
  ∧ (∀ s, raw.dialect = some s → s ≠ "" → (mergeStyle raw).dialect = some s)
  ∧ (raw.sentenceStructure = none → (mergeStyle raw).sentenceStructure = some "Natural")
  ∧ (∀ s, raw.sentenceStructure = some s → s ≠ "" → (mergeStyle raw).sentenceStructure = some s)
  ∧ (raw.sentenceLengthBias = none → (mergeStyle raw).sentenceLengthBias = some "Varied")
  ∧ (∀ s, raw.sentenceLengthBias = some s → s ≠ "" → (mergeStyle raw).sentenceLengthBias = some s)
  ∧ (raw.vocabularyStyle = none → (mergeStyle raw).vocabularyStyle = some "Literal")
  ∧ (∀ s, raw.vocabularyStyle = some s → s ≠ "" → (mergeStyle raw).vocabularyStyle = some s)
  ∧ (raw.modifierFrequency = none → (mergeStyle raw).modifierFrequency = some "Medium")
  ∧ (∀ s, raw.modifierFrequency = some s → s ≠ "" → (mergeStyle raw).modifierFrequency = some s)
  ∧ (raw.connectiveFrequency = none → (mergeStyle raw).connectiveFrequency = some "Medium")
  ∧ (∀ s, raw.connectiveFrequency = some s → s ≠ "" → (mergeStyle raw).connectiveFrequency = some s)
  ∧ (raw.writingDomain = none → (mergeStyle raw).writingDomain = some "General")
  ∧ (∀ s, raw.writingDomain = some s → s ≠ "" → (mergeStyle raw).writingDomain = some s)
  ∧ (raw.structuralBias = none → (mergeStyle raw).structuralBias = some "Default")
  ∧ (∀ s, raw.structuralBias = some s → s ≠ "" → (mergeStyle raw).structuralBias = some s)
  ∧ (raw.useMetaphors = none → (mergeStyle raw).useMetaphors = some false)
  ∧ (∀ b, raw.useMetaphors = some b → (mergeStyle raw).useMetaphors = some b)
  ∧ (raw.useAnalogies = none → (mergeStyle raw).useAnalogies = some false)
  ∧ (∀ b, raw.useAnalogies = some b → (mergeStyle raw).useAnalogies = some b)
  ∧ (raw.useAnecdotes = none → (mergeStyle raw).useAnecdotes = some false)
  ∧ (∀ b, raw.useAnecdotes = some b → (mergeStyle raw).useAnecdotes = some b)
  ∧ (raw.allowContractions = none → (mergeStyle raw).allowContractions = some true)
  ∧ (∀ b, raw.allowContractions = some b → (mergeStyle raw).allowContractions = some b)
  ∧ (raw.allowSplitInfinitives = none → (mergeStyle raw).allowSplitInfinitives = some true)
  ∧ (∀ b, raw.allowSplitInfinitives = some b → (mergeStyle raw).allowSplitInfinitives = some b)
  ∧ (raw.allowEndingPrepositions = none → (mergeStyle raw).allowEndingPrepositions = some true)
  ∧ (∀ b, raw.allowEndingPrepositions = some b → (mergeStyle raw).allowEndingPrepositions = some b)
  ∧ (raw.preferConcreteNouns = none → (mergeStyle raw).preferConcreteNouns = some true)
  ∧ (∀ b, raw.preferConcreteNouns = some b → (mergeStyle raw).preferConcreteNouns = some b)
  ∧ (raw.allowedPunctuation = none → (mergeStyle raw).allowedPunctuation = some [",", "."])
  ∧ (∀ l, raw.allowedPunctuation = some l → (mergeStyle raw).allowedPunctuation = some l)
  ∧ (raw.bannedWords = none → (mergeStyle raw).bannedWords = some [])
  ∧ (∀ l, raw.bannedWords = some l → (mergeStyle raw).bannedWords = some l) := by
  refine ⟨?_, ?_, ?_, ?_, ?_, ?_, ?_, ?_, ?_, ?_, ?_, ?_, ?_, ?_, ?_, ?_, ?_, ?_, ?_, ?_, ?_, ?_, ?_, ?_, ?_, ?_, ?_, ?_, ?_, ?_, ?_, ?_, ?_, ?_⟩
  all_goals intros
  all_goals simp_all [mergeStyle, jsOrStr, jsOrList, jsCoalesce]

/-- C8 witness: an absent `dialect` becomes "American", a present non-empty
`dialect` ("British") is kept, and an absent `bannedWords` becomes the empty
list. -/
theorem mergeStyle_coalesce_witness :
    (mergeStyle emptyRaw).dialect = some "American"
  ∧ (mergeStyle promptCompliantRaw).dialect = some "British"
  ∧ (mergeStyle emptyRaw).bannedWords = some [] :=
  ⟨(mergeStyle_coalesce emptyRaw).1 rfl,
    (mergeStyle_coalesce promptCompliantRaw).2.1 "British" rfl (by decide),
    (mergeStyle_coalesce emptyRaw).2.2.2.2.2.2.2.2.2.2.2.2.2.2.2.2.2.2.2.2.2.2.2.2.2.2.2.2.2.2.2.2.1 rfl⟩

/-- C9: calibration from the editor rejects content shorter than the
50-character minimum synchronously, with zero style-analysis oracle
invocations; content meeting the minimum triggers exactly one oracle
invocation, with no retry. -/
theorem handleCalibrateFromEditor_length_gate (apiKey content : String)
    (oracle : Except String (Option StyleRecord)) (hk : apiKey ≠ "") :
    (content.length < 50 →
      handleCalibrateFromEditor apiKey content oracle
        = { rejected := true, oracleCalls := 0, newProfile := none })
  ∧ (50 ≤ content.length →
      (handleCalibrateFromEditor apiKey content oracle).oracleCalls = 1
        ∧ (handleCalibrateFromEditor apiKey content oracle).rejected = false) := by
  constructor
  · intro h
    unfold handleCalibrateFromEditor
    rw [if_pos h]
  · intro h
    unfold handleCalibrateFromEditor analyzeStyle
    rw [if_neg (not_lt.mpr h), if_neg hk]
    rcases oracle with e | o
    · exact ⟨rfl, rfl⟩
    · rcases o with _ | p
      · exact ⟨rfl, rfl⟩
      · exact ⟨rfl, rfl⟩

/-- A 60-character editor content sample. -/
def sixtyChars : String :=
  "abcdefghijabcdefghijabcdefghijabcdefghijabcdefghijabcdefghij"

/-- C9 witness: a 10-character input is rejected with no oracle call; a
60-character input invokes the oracle exactly once. -/
theorem handleCalibrateFromEditor_length_gate_witness :
    ("0123456789" : String).length < 50
  ∧ handleCalibrateFromEditor "key" "0123456789" (Except.ok (some promptCompliantRaw))
      = { rejected := true, oracleCalls := 0, newProfile := none }
  ∧ 50 ≤ sixtyChars.length
  ∧ (handleCalibrateFromEditor "key" sixtyChars
      (Except.ok (some promptCompliantRaw))).oracleCalls = 1 :=
  ⟨by decide,
    (handleCalibrateFromEditor_length_gate "key" "0123456789"
      (Except.ok (some promptCompliantRaw)) (by decide)).1 (by decide),
    by decide,
    ((handleCalibrateFromEditor_length_gate "key" sixtyChars
      (Except.ok (some promptCompliantRaw)) (by decide)).2 (by decide)).1⟩

/-- C10 counterexample: `extractKeywords` is an exported service operation,
yet with the empty API key it returns the empty keyword list instead of
throwing the "API Key missing" error the other operations throw. -/
theorem extractKeywords_empty_key_cex :
    extractKeywords "" sixtyChars (Except.ok (some ["quantum"])) = Except.ok []
  ∧ extractKeywords "" sixtyChars (Except.ok (some ["quantum"]))
      ≠ Except.error "API Key missing" :=
  ⟨rfl, by simp [extractKeywords]⟩

/-- C10 amended: with the empty API key, every exported service operation
except `extractKeywords` — `findCitationsForSelection` (before any keyword
matching or generation request), `analyzeStyle` (before any oracle call),
`generateStyleSample`, `rewriteSection`, `continueSection` and `ghostWrite` —
throws the synchronous "API Key missing" error; `extractKeywords` instead
silently returns the empty list. -/
theorem apiKey_guard
    (kws : List String) (db : List ResearchSnippet)
    (gen : Nat → Except String (Option (List GenCitation))) (f : Nat → String)
    (so : Except String (Option StyleRecord)) (tor : Except String (Option String))
    (sel text : String)
    (gw : Except String (Option (String × List ResearchSnippet))) :
    (findCitationsForSelection "" kws db gen f).result = Except.error "API Key missing"
  ∧ (findCitationsForSelection "" kws db gen f).genRequest = none
  ∧ (analyzeStyle "" so).result = Except.error "API Key missing"
  ∧ (analyzeStyle "" so).oracleCalls = 0
  ∧ generateStyleSample "" tor = Except.error "API Key missing"
  ∧ rewriteSection "" sel tor = Except.error "API Key missing"
  ∧ continueSection "" tor = Except.error "API Key missing"
  ∧ ghostWrite "" gw f = Except.error "API Key missing"
  ∧ extractKeywords "" text (Except.ok (some kws)) = Except.ok [] := by
  refine ⟨rfl, rfl, rfl, rfl, rfl, rfl, rfl, rfl, ?_⟩
  unfold extractKeywords
  rw [if_pos (Or.inl rfl)]
